import Mathlib

/-!
Shallow embedding of the two Kaltura app-token command-line utilities of this
repository: `kaltura_app_token_manager.py` (Tool A) and `kapptokens.py`
(Tool B).  Pure helpers of the scripts become Lean functions; the remote API
client is an oracle record of response functions; each entry point returns the
list of remote calls it performed (its trace) together with its outcome.
Python strings are Lean strings; byte strings (session strings and token
secret values, which the scripts hash) are lists of naturals.  The external
`hashlib.sha256(...).hexdigest()` call is modelled by an executable SHA-256
(FIPS 180-4) over byte lists, rendered as a lowercase hex string.
-/

namespace KalAppTokens

/-- Byte strings (the data the scripts hash).  The session strings and token
values handled by the scripts are ASCII, where the UTF-8 encoding used by
Tool A and the ASCII encoding used by Tool B coincide, so both tools hash the
same byte list. -/
abbrev Bytes := List Nat

/-- Model of Python `str.replace` with a single-character pattern (the only
form the scripts use): every occurrence of `c` is replaced by `repl`. -/
def charReplace (c : Char) (repl : List Char) : List Char → List Char
  | [] => []
  | x :: xs => if x = c then repl ++ charReplace c repl xs else x :: charReplace c repl xs

/-- Python `s.replace(c, repl)` on Lean strings, single-character pattern. -/
def pyReplaceChar (s : String) (c : Char) (repl : String) : String :=
  String.mk (charReplace c repl.data s.data)

/-- Model of Python `str.split(sep)` for a single-character separator, on
character lists: `"".split(sep) = [""]`, and separators delimit (possibly
empty) groups. -/
def splitOnChar (c : Char) : List Char → List (List Char)
  | [] => [[]]
  | x :: xs =>
    match splitOnChar c xs with
    | [] => [[]]
    | g :: gs => if x = c then [] :: g :: gs else (x :: g) :: gs

/-- Python `s.split(c)` on Lean strings. -/
def pySplit (s : String) (c : Char) : List String :=
  (splitOnChar c s.data).map String.mk

/-- Python `s.lower()` (the scripts only lowercase ASCII action names). -/
def pyLower (s : String) : String := String.mk (s.data.map Char.toLower)

/-- Python `c in s` for a single character. -/
def pyContainsChar (s : String) (c : Char) : Bool := s.data.contains c

/-- Truthiness of an optional Python string: `None` and `""` are falsy. -/
def optTruthy : Option String → Bool
  | none => false
  | some s => s != ""

/-- Python `f"{b}"` rendering of a bool. -/
def pyBoolRepr (b : Bool) : String := if b then "True" else "False"

/-- Python `f"{i}"` rendering of an int (decimal, with a leading minus sign
for negatives, exactly as Lean renders `Int`). -/
def intRepr (i : Int) : String := toString i

/-- Bool-valued substring test on character lists (Python `in` on strings). -/
def containsSub (pat : List Char) : List Char → Bool
  | [] => pat.isEmpty
  | x :: xs => pat.isPrefixOf (x :: xs) || containsSub pat xs

/-! ### SHA-256 (model of the external `hashlib` library, FIPS 180-4) -/

/-- Reduction to a 32-bit word. -/
def w32 (n : Nat) : Nat := n % 4294967296

/-- 32-bit right rotation by `n`, in arithmetic form (for `x < 2^32` this is
the usual `(x >>> n) ||| (x <<< (32 - n))` on 32-bit words). -/
def rotr32 (n x : Nat) : Nat := x % 2 ^ n * 2 ^ (32 - n) + x / 2 ^ n

/-- SHA-256 choice function `Ch(e,f,g)`; the 32-bit complement of `e` is
`e XOR 0xffffffff`. -/
def shaCh (e f g : Nat) : Nat := (e &&& f) ^^^ ((e ^^^ 4294967295) &&& g)

/-- SHA-256 majority function `Maj(a,b,c)`. -/
def shaMaj (a b c : Nat) : Nat := (a &&& b) ^^^ (a &&& c) ^^^ (b &&& c)

/-- SHA-256 `Σ0`. -/
def bigSigma0 (a : Nat) : Nat := rotr32 2 a ^^^ rotr32 13 a ^^^ rotr32 22 a

/-- SHA-256 `Σ1`. -/
def bigSigma1 (e : Nat) : Nat := rotr32 6 e ^^^ rotr32 11 e ^^^ rotr32 25 e

/-- SHA-256 `σ0`. -/
def smallSigma0 (x : Nat) : Nat := rotr32 7 x ^^^ rotr32 18 x ^^^ (x / 2 ^ 3)

/-- SHA-256 `σ1`. -/
def smallSigma1 (x : Nat) : Nat := rotr32 17 x ^^^ rotr32 19 x ^^^ (x / 2 ^ 10)

/-- The 64 SHA-256 round constants (FIPS 180-4, written in decimal). -/
def shaK : List Nat :=
  [1116352408, 1899447441, 3049323471, 3921009573, 961987163, 1508970993, 2453635748,
   2870763221, 3624381080, 310598401, 607225278, 1426881987, 1925078388, 2162078206,
   2614888103, 3248222580, 3835390401, 4022224774, 264347078, 604807628, 770255983,
   1249150122, 1555081692, 1996064986, 2554220882, 2821834349, 2952996808, 3210313671,
   3336571891, 3584528711, 113926993, 338241895, 666307205, 773529912, 1294757372,
   1396182291, 1695183700, 1986661051, 2177026350, 2456956037, 2730485921, 2820302411,
   3259730800, 3345764771, 3516065817, 3600352804, 4094571909, 275423344, 430227734,
   506948616, 659060556, 883997877, 958139571, 1322822218, 1537002063, 1747873779,
   1955562222, 2024104815, 2227730452, 2361852424, 2428436474, 2756734187, 3204031479,
   3329325298]

/-- The eight 32-bit working variables of the SHA-256 state. -/
structure Hash8 where
  a : Nat
  b : Nat
  c : Nat
  d : Nat
  e : Nat
  f : Nat
  g : Nat
  h : Nat
deriving DecidableEq

/-- The SHA-256 initial hash value (FIPS 180-4, written in decimal). -/
def initH : Hash8 :=
  ⟨1779033703, 3144134277, 1013904242, 2773480762,
   1359893119, 2600822924, 528734635, 1541459225⟩

/-- One SHA-256 compression round; `kw` is the pair of the round constant and
the scheduled message word. -/
def compressRound (st : Hash8) (kw : Nat × Nat) : Hash8 :=
  let t1 := w32 (st.h + bigSigma1 st.e + shaCh st.e st.f st.g + kw.1 + kw.2)
  let t2 := w32 (bigSigma0 st.a + shaMaj st.a st.b st.c)
  ⟨w32 (t1 + t2), st.a, st.b, st.c, w32 (st.d + t1), st.e, st.f, st.g⟩

/-- One step of extending the message schedule by its next word. -/
def scheduleStep (acc : List Nat) : List Nat :=
  acc ++ [w32 (smallSigma1 (acc.getD (acc.length - 2) 0) + acc.getD (acc.length - 7) 0 +
               smallSigma0 (acc.getD (acc.length - 15) 0) + acc.getD (acc.length - 16) 0)]

/-- Extend a 16-word block by `k` further scheduled words. -/
def extendSchedule (acc : List Nat) : Nat → List Nat
  | 0 => acc
  | k + 1 => extendSchedule (scheduleStep acc) k

/-- Process one 16-word block of the padded message. -/
def processBlock (h : Hash8) (block : List Nat) : Hash8 :=
  let w := extendSchedule block 48
  let st := (shaK.zip w).foldl compressRound h
  ⟨w32 (h.a + st.a), w32 (h.b + st.b), w32 (h.c + st.c), w32 (h.d + st.d),
   w32 (h.e + st.e), w32 (h.f + st.f), w32 (h.g + st.g), w32 (h.h + st.h)⟩

/-- Big-endian byte rendering of `v` on `k` bytes. -/
def beBytes : Nat → Nat → List Nat
  | 0, _ => []
  | k + 1, v => v / 2 ^ (8 * k) % 256 :: beBytes k v

/-- SHA-256 padding: a `0x80` byte, zero bytes to 56 mod 64, and the 64-bit
big-endian bit length. -/
def padMessage (msg : Bytes) : Bytes :=
  let padZeros := (119 - msg.length % 64) % 64
  msg ++ [128] ++ List.replicate padZeros 0 ++ beBytes 8 (msg.length * 8)

/-- Group bytes into big-endian 32-bit words. -/
def wordsOfBytes : Bytes → List Nat
  | b1 :: b2 :: b3 :: b4 :: rest =>
    (((b1 * 256 + b2) * 256 + b3) * 256 + b4) :: wordsOfBytes rest
  | _ => []

/-- Fuel-driven grouping of a byte list into 64-byte blocks (the fuel is the
list length, which always suffices). -/
def chunks64Fuel : Nat → Bytes → List Bytes
  | _, [] => []
  | 0, l => [l]
  | f + 1, x :: xs => (x :: xs).take 64 :: chunks64Fuel f (xs.drop 63)

/-- Group a byte list into 64-byte blocks. -/
def chunks64 (l : Bytes) : List Bytes := chunks64Fuel l.length l

/-- The eight 32-bit words of the SHA-256 digest of a byte string. -/
def sha256Words (msg : Bytes) : List Nat :=
  let blocks := (chunks64 (padMessage msg)).map wordsOfBytes
  let f := blocks.foldl processBlock initH
  [f.a, f.b, f.c, f.d, f.e, f.f, f.g, f.h]

/-- Lowercase hex character of a nibble. -/
def hexChar (n : Nat) : Char := if n < 10 then Char.ofNat (48 + n) else Char.ofNat (87 + n)

/-- The eight lowercase hex characters of a 32-bit word, most significant
nibble first. -/
def wordToHex (w : Nat) : List Char :=
  [hexChar (w / 2 ^ 28 % 16), hexChar (w / 2 ^ 24 % 16), hexChar (w / 2 ^ 20 % 16),
   hexChar (w / 2 ^ 16 % 16), hexChar (w / 2 ^ 12 % 16), hexChar (w / 2 ^ 8 % 16),
   hexChar (w / 2 ^ 4 % 16), hexChar (w % 16)]

/-- Model of the external `hashlib.sha256(data).hexdigest()`: the SHA-256
digest of a byte string as a 64-character lowercase hex string. -/
def sha256hexdigest (msg : Bytes) : String :=
  String.mk ((sha256Words msg).foldr (fun w acc => wordToHex w ++ acc) [])

/-- The proof-of-possession hash both tools compute before requesting an
app-token session: `hashlib.sha256(unprivileged_ks + app_token_value).hexdigest()`
(Tool A line 182, Tool B line 34; the two tools differ only in naming the
encoding UTF-8 vs ASCII, which agree on the ASCII data involved). -/
def appTokenHash (uks tokenValue : Bytes) : String := sha256hexdigest (uks ++ tokenValue)

/-- All eight state words are 32-bit bounded. -/
def Hash8.Bounded (st : Hash8) : Prop :=
  st.a < 4294967296 ∧ st.b < 4294967296 ∧ st.c < 4294967296 ∧ st.d < 4294967296 ∧
  st.e < 4294967296 ∧ st.f < 4294967296 ∧ st.g < 4294967296 ∧ st.h < 4294967296

/-- Base-`2^32` encoding of a word list (used only to count digests). -/
def encodeWords : List Nat → Nat
  | [] => 0
  | w :: ws => encodeWords ws * 4294967296 + w

/-- The 33-byte messages, as functions, injected into byte strings. -/
def toBytesFn (f : Fin 33 → Fin 256) : Bytes := List.ofFn (fun i => (f i).val)

/-- The digest of a 33-byte message, packed into a natural number (there are
only `2^256` possible values, fewer than the `2^264` messages). -/
def digestNum (f : Fin 33 → Fin 256) : Nat := encodeWords (sha256Words (toBytesFn f))

/-! ### Shared data model -/

/-- A configuration value read from `config.json` (the scripts use numeric and
string entries). -/
inductive ConfigVal
  | num (n : Nat)
  | str (s : String)
deriving DecidableEq

/-- The parsed `config.json` dictionary. -/
abbrev ConfigDict := List (String × ConfigVal)

/-- The outcome of opening and parsing `config.json`: the file may be absent,
hold invalid JSON, or parse to a dictionary (the open/parse itself is the
external filesystem and `json` library). -/
inductive ConfigFile
  | missing
  | invalidJson
  | valid (cfg : ConfigDict)

/-- `KalturaSessionType.USER`. -/
def sessionTypeUSER : Nat := 0

/-- `KalturaSessionType.ADMIN`. -/
def sessionTypeADMIN : Nat := 2

/-- The value a script stores in a `KalturaAppToken.sessionPrivileges` slot.
Python is untyped here: Tool A and Tool B's append branch store a string, but
Tool B's create and non-append update branches store the raw Python list
returned by `build_uri_privilege`, so the model keeps both shapes. -/
inductive PrivVal
  | str (s : String)
  | strList (l : List String)
deriving DecidableEq

/-- The `KalturaAppToken` resource object (the SDK fields the scripts read or
write, plus representative server-assigned fields, so that frame conditions
are expressible).  Fresh objects get neutral defaults; the server's responses
come from the oracle, so the defaults are never observed by the claims. -/
structure AppToken where
  id : String
  token : Bytes
  partnerId : Nat
  status : Nat
  expiry : Nat
  sessionType : Nat
  sessionUserId : String
  sessionDuration : Nat
  sessionPrivileges : PrivVal
  hashType : String
  description : Option String
deriving DecidableEq

/-- A fresh `KalturaAppToken()` with nothing assigned yet. -/
def emptyAppToken : AppToken :=
  { id := "", token := [], partnerId := 0, status := 0, expiry := 0,
    sessionType := 0, sessionUserId := "", sessionDuration := 0,
    sessionPrivileges := PrivVal.str "", hashType := "", description := none }

/-- One remote API call, as the scripts issue it (`setKs` records the client
session mutation between calls). -/
inductive CallEv
  | configLoad
  | sessionStart (secret : Option ConfigVal) (userId : ConfigVal) (stype : Nat)
      (partnerId : Option ConfigVal) (expiry : ConfigVal) (privileges : ConfigVal)
  | sessionStartB (secret : ConfigVal) (userId : ConfigVal) (stype : Nat)
      (partnerId : ConfigVal) (expiry : ConfigVal) (privileges : String)
  | startWidgetSession (widgetId : String)
  | setKs (ks : Bytes)
  | appTokenStartSessionFull (id : String) (hash : String) (extra : String)
      (stype : Nat) (partnerId : Option ConfigVal)
  | appTokenStartSessionShort (id : String) (hash : String)
  | appTokenGet (id : String)
  | appTokenAdd (t : AppToken)
  | appTokenUpdate (id : String) (t : AppToken)
  | appTokenDelete (id : String)
  | appTokenList
deriving DecidableEq

/-- Does the event create, modify or delete an app token on the server? -/
def CallEv.isMutation : CallEv → Bool
  | .appTokenAdd _ => true
  | .appTokenUpdate _ _ => true
  | .appTokenDelete _ => true
  | _ => false

/-- Is the event one of the two handshake requests of §4.2? -/
def CallEv.isHandshake : CallEv → Bool
  | .startWidgetSession _ => true
  | .appTokenStartSessionFull _ _ _ _ _ => true
  | .appTokenStartSessionShort _ _ => true
  | _ => false

/-! ### Tool A (`kaltura_app_token_manager.py`) -/

/-- The argparse result of Tool A: one optional value per privilege flag
(string- or int-typed exactly as `setup_parser` declares them; the four
`store_true` flags are booleans whose argparse default is `False`), plus the
command flags. -/
structure ArgsA where
  edit : Option String := none
  sview : Option String := none
  download : Option String := none
  downloadasset : Option String := none
  editplaylist : Option String := none
  sviewplaylist : Option String := none
  edituser : Option String := none
  actionslimit : Option Int := none
  setrole : Option String := none
  iprestrict : Option String := none
  urirestrict : Option String := none
  enableentitlement : Bool := false
  disableentitlement : Bool := false
  disableentitlementforentry : Option String := none
  privacycontext : Option String := none
  enablecategorymoderation : Bool := false
  reftime : Option Int := none
  preview : Option Int := none
  sessionid : Option String := none
  description : Option String := none
  update : Option String := none
  list : Bool := false
  start_session : Bool := false
  delete : Option String := none

/-- The argparse defaults of Tool A (an invocation supplying no options). -/
def argsADefault : ArgsA := {}

/-- `handle_privilege` of Tool A (lines 24-30): `"list:*"` for `list`,
`f"{privilege_name}:{value}"` otherwise. -/
def handle_privilege (privilege_name value : String) : String :=
  if privilege_name = "list" then "list:*" else privilege_name ++ ":" ++ value

/-- The `getattr(args, privilege, None)` view of the parsed arguments, in the
declaration order of `PRIVILEGE_HANDLERS` (lines 33-54).  A `str`/`int`-typed
option yields its value (`none` when omitted, since its argparse default is
`None`); a `store_true` flag always yields its bool (argparse default
`False`), rendered as Python renders it in an f-string. -/
def privilegeArgs (a : ArgsA) : List (String × Option String) :=
  [("edit", a.edit), ("sview", a.sview), ("list", some (pyBoolRepr a.list)),
   ("download", a.download), ("downloadasset", a.downloadasset),
   ("editplaylist", a.editplaylist), ("sviewplaylist", a.sviewplaylist),
   ("edituser", a.edituser), ("actionslimit", a.actionslimit.map intRepr),
   ("setrole", a.setrole), ("iprestrict", a.iprestrict),
   ("urirestrict", a.urirestrict),
   ("enableentitlement", some (pyBoolRepr a.enableentitlement)),
   ("disableentitlement", some (pyBoolRepr a.disableentitlement)),
   ("disableentitlementforentry", a.disableentitlementforentry),
   ("privacycontext", a.privacycontext),
   ("enablecategorymoderation", some (pyBoolRepr a.enablecategorymoderation)),
   ("reftime", a.reftime.map intRepr), ("preview", a.preview.map intRepr),
   ("sessionid", a.sessionid)]

/-- `build_privileges` of Tool A (lines 102-113): for each supported privilege
in declaration order, if its `getattr` value is not `None`, append
`handle_privilege(privilege, value)`; join with commas. -/
def build_privileges (a : ArgsA) : String :=
  String.intercalate ","
    ((privilegeArgs a).filterMap (fun nv => nv.2.map (fun v => handle_privilege nv.1 v)))

/-- The errors Tool A can raise (each is a plain `Exception` in the script;
the spec's taxonomy names them ConfigurationError, key-lookup failure and
HandshakeError). -/
inductive ErrA
  | configError (msg : String)
  | keyError (key : String)
  | sessionStartFailed
  | unprivSessionFailed
  | privSessionFailed
deriving DecidableEq

/-- The remote platform as Tool A sees it: one response function per operation
it consumes.  `none` for a CRUD response models a `KalturaException` raised by
the call; session strings are returned as byte strings, with `[]` standing for
an absent/empty session string (both `None` and `""` are falsy in the
scripts' checks). -/
structure ClientA where
  sessionStart : Option ConfigVal → ConfigVal → Nat → Option ConfigVal → ConfigVal →
    ConfigVal → Option Bytes
  startWidgetSession : String → Bytes
  appTokenStartSession : String → String → String → Nat → Option ConfigVal → Bytes
  appTokenGet : String → Option AppToken
  appTokenAdd : AppToken → Option AppToken
  appTokenUpdate : String → AppToken → Option AppToken
  appTokenDelete : String → Option Unit
  appTokenList : Option (List AppToken)

/-- `load_configuration` of Tool A (lines 198-206): wraps a missing file or
invalid JSON in a configuration `Exception`, and returns the parsed dictionary
otherwise — performing no validation of its keys. -/
def load_configuration : ConfigFile → Except ErrA ConfigDict
  | .missing => .error (.configError "Configuration file 'config.json' not found.")
  | .invalidJson => .error (.configError "Configuration file 'config.json' contains invalid JSON.")
  | .valid cfg => .ok cfg

/-- `initialize_client` of Tool A (lines 208-218): reads
`config['PARTNER_ID']` and `config['KALTURA_SERVICE_URL']` with bracket
lookups, so a missing key raises `KeyError`; the client object itself is the
oracle, so nothing else is observable. -/
def initialize_client (cfg : ConfigDict) : Except ErrA Unit :=
  match List.lookup "PARTNER_ID" cfg with
  | none => .error (.keyError "PARTNER_ID")
  | some _ =>
    match List.lookup "KALTURA_SERVICE_URL" cfg with
    | none => .error (.keyError "KALTURA_SERVICE_URL")
    | some _ => .ok ()

/-- `start_admin_session` of Tool A (lines 220-234): all configuration keys
are read with defaulting `.get` lookups, the session call is issued, and a
`KalturaException` is re-raised as a failure. -/
def start_admin_session (resp : ClientA) (cfg : ConfigDict) : CallEv × Except ErrA Bytes :=
  let secret := List.lookup "ADMIN_SECRET" cfg
  let userId := (List.lookup "USER_ID" cfg).getD (ConfigVal.str "")
  let pid := List.lookup "PARTNER_ID" cfg
  let expiry := (List.lookup "EXPIRY" cfg).getD (ConfigVal.num 86400)
  let privs := (List.lookup "DEFAULT_ADMIN_PRIVILEGES" cfg).getD (ConfigVal.str "")
  let ev := CallEv.sessionStart secret userId sessionTypeADMIN pid expiry privs
  match resp.sessionStart secret userId sessionTypeADMIN pid expiry privs with
  | none => (ev, .error .sessionStartFailed)
  | some ks => (ev, .ok ks)

/-- Python `f"_{partner_id}"` where `partner_id` came from a defaulting
`config.get` lookup (so it can be `None`, rendered `"None"`). -/
def pyShowOptVal : Option ConfigVal → String
  | none => "None"
  | some (.num n) => toString n
  | some (.str s) => s

/-- `start_app_token_session` of Tool A (lines 169-194): widget session
request keyed by `"_{partner_id}"`, failure when the returned session string
is empty, proof-of-possession hash, app-token session request with the extra
`("", USER, partner_id)` arguments, and failure when the privileged session
string is empty.  Returns the calls issued and the privileged session. -/
def start_app_token_session (resp : ClientA) (partnerId : Option ConfigVal)
    (tokId : String) (tokVal : Bytes) : List CallEv × Except ErrA Bytes :=
  let wid := "_" ++ pyShowOptVal partnerId
  let uks := resp.startWidgetSession wid
  if uks = [] then
    ([CallEv.startWidgetSession wid], .error .unprivSessionFailed)
  else
    let hs := appTokenHash uks tokVal
    let pks := resp.appTokenStartSession tokId hs "" sessionTypeUSER partnerId
    let evs := [CallEv.startWidgetSession wid, CallEv.setKs uks,
                CallEv.appTokenStartSessionFull tokId hs "" sessionTypeUSER partnerId]
    if pks = [] then (evs, .error .privSessionFailed)
    else (evs ++ [CallEv.setKs pks], .ok pks)

/-- `delete_app_token` of Tool A (lines 93-99): one delete call; both success
and the caught `KalturaException` only print. -/
def delete_app_token (_resp : ClientA) (id : String) : List CallEv :=
  [CallEv.appTokenDelete id]

/-- `list_app_tokens` of Tool A (lines 120-166): one filtered, paged list
call; the table rendering is terminal output and out of scope. -/
def list_app_tokens (_resp : ClientA) : List CallEv :=
  [CallEv.appTokenList]

/-- The token object `update_app_token` submits (lines 242-246): the fetched
token with `sessionPrivileges` overwritten only when the privilege string is
truthy (non-empty) and `description` overwritten only when the description is
truthy. -/
def updatedToken (fetched : AppToken) (privileges : String) (description : Option String) :
    AppToken :=
  let t1 := if privileges != "" then
      { fetched with sessionPrivileges := PrivVal.str privileges } else fetched
  if optTruthy description then { t1 with description := description } else t1

/-- `update_app_token` of Tool A (lines 237-258): fetch, overlay, update.  A
`KalturaException` anywhere in the block is caught, printed, and `None` is
returned. -/
def update_app_token (resp : ClientA) (id : String) (privileges : String)
    (description : Option String) : List CallEv × Option AppToken :=
  match resp.appTokenGet id with
  | none => ([CallEv.appTokenGet id], none)
  | some fetched =>
    let t := updatedToken fetched privileges description
    ([CallEv.appTokenGet id, CallEv.appTokenUpdate id t], resp.appTokenUpdate id t)

/-- `create_app_token` of Tool A (lines 260-280): a fresh token with the
description, privilege string, USER session type and SHA256 hash type, one add
call; a caught `KalturaException` yields `None`. -/
def create_app_token (resp : ClientA) (privileges : String) (description : Option String) :
    List CallEv × Option AppToken :=
  let t := { emptyAppToken with
    description := description, sessionPrivileges := PrivVal.str privileges,
    sessionType := sessionTypeUSER, hashType := "SHA256" }
  ([CallEv.appTokenAdd t], resp.appTokenAdd t)

/-- Truthiness of an optional byte string (`None` and `""` are falsy). -/
def bytesOptTruthy : Option Bytes → Bool
  | none => false
  | some b => !b.isEmpty

/-- `process_app_token_arguments` of Tool A (lines 308-326): update when an
update id is supplied, otherwise create and remember the new token's id and
value; afterwards, when `--start_session` is set and both remembered values
are truthy, run the handshake.  On the update path the update result is
discarded, so the remembered id/value stay `None`. -/
def process_app_token_arguments (resp : ClientA) (args : ArgsA) (cfg : ConfigDict) :
    List CallEv :=
  let _privileges := build_privileges args
  let step :=
    if optTruthy args.update then
      ((update_app_token resp (args.update.getD "") (build_privileges args) args.description).1,
       (none : Option String), (none : Option Bytes))
    else
      match create_app_token resp (build_privileges args) args.description with
      | (evs, some t) => (evs, some t.id, some t.token)
      | (evs, none) => (evs, none, none)
  match step with
  | (evs, newTokId, newTokVal) =>
    if args.start_session && (optTruthy newTokId && bytesOptTruthy newTokVal) then
      evs ++ (start_app_token_session resp (List.lookup "PARTNER_ID" cfg)
        (newTokId.getD "") (newTokVal.getD [])).1
    else evs

/-- `run_application` of Tool A (lines 294-306): load configuration,
initialize the client, start the admin session, then dispatch on
delete / list / create-or-update.  The trace lists the calls issued in
order. -/
def run_application (file : ConfigFile) (resp : ClientA) (args : ArgsA) :
    List CallEv × Except ErrA Unit :=
  match load_configuration file with
  | .error e => ([CallEv.configLoad], .error e)
  | .ok cfg =>
    match initialize_client cfg with
    | .error e => ([CallEv.configLoad], .error e)
    | .ok _ =>
      match start_admin_session resp cfg with
      | (ev, .error e) => ([CallEv.configLoad, ev], .error e)
      | (ev, .ok ks) =>
        let evs := [CallEv.configLoad, ev, CallEv.setKs ks]
        if optTruthy args.delete then
          (evs ++ delete_app_token resp (args.delete.getD ""), .ok ())
        else if args.list then
          (evs ++ list_app_tokens resp, .ok ())
        else
          (evs ++ process_app_token_arguments resp args cfg, .ok ())

/-! ### Tool B (`kapptokens.py`) -/

/-- The argparse result of Tool B. -/
structure ArgsB where
  list : Bool := false
  actions : Option String := none
  update : Option String := none
  append : Bool := false
  description : Option String := none
  debug : Bool := false

/-- The remote platform as Tool B sees it.  `get`, `add` and `update` may
raise a `KalturaException`, modelled as an error code string (Tool B catches
only `APP_TOKEN_ID_NOT_FOUND` on `get`); the session operations return
whatever session string the server produces, `[]` standing for an
absent/empty one. -/
structure ClientB where
  sessionStart : ConfigVal → ConfigVal → Nat → ConfigVal → ConfigVal → String → Bytes
  startWidgetSession : String → Bytes
  appTokenStartSession : String → String → Bytes
  appTokenGet : String → Except String AppToken
  appTokenAdd : AppToken → Except String AppToken
  appTokenUpdate : String → AppToken → Except String AppToken
  appTokenList : List AppToken

/-- How a Tool B invocation ends: normal completion, an explicit early
`return`, or an uncaught exception (named by its Python type or Kaltura error
code). -/
inductive BOutcome
  | completed
  | earlyReturn
  | crashed (reason : String)
deriving DecidableEq

/-- The observable behaviour of one Tool B invocation: the remote calls in
order, the diagnostic messages it prints (informational output is not
modelled), and how it ended. -/
structure BRun where
  calls : List CallEv
  reports : List String
  outcome : BOutcome
deriving DecidableEq

/-- Python `f"_{partner_id}"` for a configuration value. -/
def pyShowVal : ConfigVal → String
  | .num n => toString n
  | .str s => s

/-- `build_uri_privilege` of Tool B (lines 45-53): an action containing `*`
maps to `/api_v3/service/` followed by the action with `.` replaced by
`/action/` (and the vacuous `*`-to-`*` replacement); any other action
additionally gets a trailing `/`. -/
def build_uri_privilege (list_actions : List String) : List String :=
  list_actions.map (fun action =>
    if pyContainsChar action '*' then
      "/api_v3/service/" ++ pyReplaceChar (pyReplaceChar action '.' "/action/") '*' "*"
    else
      "/api_v3/service/" ++ pyReplaceChar action '.' "/action/" ++ "/")

/-- The privilege string Tool B's append branch builds (lines 157-169): the
existing privilege string split on `|`, extended with the new URIs,
deduplicated via Python `set` semantics, rejoined with `|` under a
`urirestrict:` prefix.  A Python `set` loses the original order
(unspecified); the model uses `List.dedup` (first occurrences, in order), and
every theorem about this value states only order-insensitive properties. -/
def appendModePriv (existingPriv : String) (list_actions : List String) : String :=
  let existing_uris := pySplit existingPriv '|'
  let new_uris := build_uri_privilege list_actions
  let unique_uris := (existing_uris ++ new_uris).dedup
  "urirestrict:" ++ String.intercalate "|" unique_uris

/-- `start_app_token_session` of Tool B (lines 21-43): widget session keyed by
`"_{partner_id}"`; on an empty unprivileged session string it prints and
returns `None`; otherwise it hashes, requests the app-token session with the
two-argument call shape, and returns the privileged session string without
checking it. -/
def toolB_start_session (resp : ClientB) (partnerId : ConfigVal) (tokId : String)
    (tokVal : Bytes) : List CallEv × List String × Option Bytes :=
  let wid := "_" ++ pyShowVal partnerId
  let uks := resp.startWidgetSession wid
  if uks = [] then
    ([CallEv.startWidgetSession wid], ["Failed to get an unprivileged ks."], none)
  else
    let hs := appTokenHash uks tokVal
    let pks := resp.appTokenStartSession tokId hs
    ([CallEv.startWidgetSession wid, CallEv.setKs uks,
      CallEv.appTokenStartSessionShort tokId hs, CallEv.setKs pks], [], some pks)

/-- The tail of Tool B's `main` (lines 200-202): generate a sample session
from the resulting token and print it. -/
def toolB_finishToken (resp : ClientB) (partnerId : ConfigVal) (evs : List CallEv)
    (result : AppToken) : BRun :=
  match toolB_start_session resp partnerId result.id result.token with
  | (hevs, hreps, _tokenKs) => ⟨evs ++ hevs, hreps, BOutcome.completed⟩

/-- The update submission of Tool B's `main` (lines 173-180): overwrite the
description only when one was supplied, then issue the update call. -/
def toolB_submitUpdate (resp : ClientB) (partnerId : ConfigVal) (evs : List CallEv)
    (uid : String) (t1 : AppToken) (description : Option String) : BRun :=
  let t2 := if optTruthy description then { t1 with description := description } else t1
  match resp.appTokenUpdate uid t2 with
  | .error code => ⟨evs ++ [CallEv.appTokenUpdate uid t2], [], BOutcome.crashed code⟩
  | .ok result => toolB_finishToken resp partnerId (evs ++ [CallEv.appTokenUpdate uid t2]) result

/-- The update branch of Tool B's `main` (lines 146-180): fetch the existing
token (`APP_TOKEN_ID_NOT_FOUND` prints and returns, any other code re-raises);
in append mode merge the URI lists (crashing with `AttributeError` if the
stored privileges are not a string, since Python would call `.split` on a
list), otherwise overwrite the privileges with the raw URI list. -/
def toolB_updateBranch (resp : ClientB) (partnerId : ConfigVal) (evs : List CallEv)
    (uid : String) (list_actions : Option (List String)) (append : Bool)
    (description : Option String) : BRun :=
  match resp.appTokenGet uid with
  | .error code =>
    if code = "APP_TOKEN_ID_NOT_FOUND" then
      ⟨evs ++ [CallEv.appTokenGet uid],
       ["App Token ID " ++ uid ++ " not found. Please use a valid ID."], BOutcome.earlyReturn⟩
    else ⟨evs ++ [CallEv.appTokenGet uid], [], BOutcome.crashed code⟩
  | .ok existing =>
    let evs1 := evs ++ [CallEv.appTokenGet uid]
    if append then
      match existing.sessionPrivileges with
      | PrivVal.strList _ => ⟨evs1, [], BOutcome.crashed "AttributeError"⟩
      | PrivVal.str epriv =>
        toolB_submitUpdate resp partnerId evs1 uid
          { existing with
            sessionPrivileges := PrivVal.str (appendModePriv epriv (list_actions.getD [])) }
          description
    else
      toolB_submitUpdate resp partnerId evs1 uid
        { existing with
          sessionPrivileges := PrivVal.strList (build_uri_privilege (list_actions.getD [])) }
        description

/-- The create branch of Tool B's `main` (lines 181-195): a fresh token with
USER session type, the raw URI list as privileges, SHA256 hash type, and the
description only when supplied; an uncaught `KalturaException` from the add
call crashes the process. -/
def toolB_createBranch (resp : ClientB) (partnerId : ConfigVal) (evs : List CallEv)
    (list_actions : Option (List String)) (description : Option String) : BRun :=
  let t := { emptyAppToken with
    sessionType := sessionTypeUSER,
    sessionPrivileges := PrivVal.strList (build_uri_privilege (list_actions.getD [])),
    hashType := "SHA256",
    description := if optTruthy description then description else none }
  match resp.appTokenAdd t with
  | .error code => ⟨evs ++ [CallEv.appTokenAdd t], [], BOutcome.crashed code⟩
  | .ok result => toolB_finishToken resp partnerId (evs ++ [CallEv.appTokenAdd t]) result

/-- `main` of Tool B (lines 69-202): the mandatory `--actions` check before
anything else, the configuration load with five bracket key lookups (each a
potential `KeyError`), the admin session, and the list / update / create
dispatch. -/
def toolB_main (file : ConfigFile) (resp : ClientB) (args : ArgsB) : BRun :=
  if (optTruthy args.update || !args.list) && !(optTruthy args.actions) then
    ⟨[], ["The --actions argument is mandatory when adding or updating an App Token."],
     BOutcome.earlyReturn⟩
  else
    let list_actions :=
      if optTruthy args.actions then some (pySplit (pyLower (args.actions.getD "")) ',')
      else none
    match file with
    | .missing => ⟨[CallEv.configLoad], [], BOutcome.crashed "FileNotFoundError"⟩
    | .invalidJson => ⟨[CallEv.configLoad], [], BOutcome.crashed "JSONDecodeError"⟩
    | .valid cfg =>
      match List.lookup "PARTNER_ID" cfg with
      | none => ⟨[CallEv.configLoad], [], BOutcome.crashed "KeyError: PARTNER_ID"⟩
      | some partnerId =>
      match List.lookup "ADMIN_SECRET" cfg with
      | none => ⟨[CallEv.configLoad], [], BOutcome.crashed "KeyError: ADMIN_SECRET"⟩
      | some adminSecret =>
      match List.lookup "SCRIPT_USER_ID" cfg with
      | none => ⟨[CallEv.configLoad], [], BOutcome.crashed "KeyError: SCRIPT_USER_ID"⟩
      | some scriptUserId =>
      match List.lookup "ADMIN_SESSION_EXPIRY" cfg with
      | none => ⟨[CallEv.configLoad], [], BOutcome.crashed "KeyError: ADMIN_SESSION_EXPIRY"⟩
      | some adminSessionExpiry =>
      match List.lookup "KALTURA_SERVICE_URL" cfg with
      | none => ⟨[CallEv.configLoad], [], BOutcome.crashed "KeyError: KALTURA_SERVICE_URL"⟩
      | some _serviceUrl =>
        let ks := resp.sessionStart adminSecret scriptUserId sessionTypeADMIN partnerId
          adminSessionExpiry ""
        let evs := [CallEv.configLoad,
          CallEv.sessionStartB adminSecret scriptUserId sessionTypeADMIN partnerId
            adminSessionExpiry "",
          CallEv.setKs ks]
        if args.list then ⟨evs ++ [CallEv.appTokenList], [], BOutcome.completed⟩
        else if optTruthy args.update then
          toolB_updateBranch resp partnerId evs (args.update.getD "") list_actions
            args.append args.description
        else
          toolB_createBranch resp partnerId evs list_actions args.description

/-! ### Concrete fixtures for evaluating the embedded scripts -/

/-- A configuration with the three keys §4.1 requires of Tool A. -/
def cfgA0 : ConfigDict :=
  [("PARTNER_ID", ConfigVal.num 12345), ("ADMIN_SECRET", ConfigVal.str "secret"),
   ("KALTURA_SERVICE_URL", ConfigVal.str "https://example.com")]

/-- A configuration lacking the required `ADMIN_SECRET`. -/
def cfgNoSecret : ConfigDict :=
  [("PARTNER_ID", ConfigVal.num 12345),
   ("KALTURA_SERVICE_URL", ConfigVal.str "https://example.com")]

/-- A configuration with the five keys Tool B reads. -/
def cfgB0 : ConfigDict :=
  [("PARTNER_ID", ConfigVal.num 12345), ("ADMIN_SECRET", ConfigVal.str "secret"),
   ("SCRIPT_USER_ID", ConfigVal.str "admin"), ("ADMIN_SESSION_EXPIRY", ConfigVal.num 86400),
   ("KALTURA_SERVICE_URL", ConfigVal.str "https://example.com")]

/-- A server-side token, as a `get` response. -/
def tokenFetched0 : AppToken :=
  { emptyAppToken with
    id := "tok1", token := [5, 6], partnerId := 12345, expiry := 99,
    sessionPrivileges := PrivVal.str "edit:*", description := some "old" }

/-- A Tool A oracle on which every remote call succeeds. -/
def respAOk : ClientA :=
  { sessionStart := fun _ _ _ _ _ _ => some [107],
    startWidgetSession := fun _ => [119],
    appTokenStartSession := fun _ _ _ _ _ => [112],
    appTokenGet := fun _ => some tokenFetched0,
    appTokenAdd := fun t => some { t with id := "newTok", token := [1, 2, 3] },
    appTokenUpdate := fun _ t => some t,
    appTokenDelete := fun _ => some (),
    appTokenList := some [] }

/-- A Tool A oracle whose add call raises a `KalturaException`. -/
def respAAddFails : ClientA := { respAOk with appTokenAdd := fun _ => none }

/-- A Tool A oracle whose widget-session request returns no session string. -/
def respAEmptyWidget : ClientA := { respAOk with startWidgetSession := fun _ => [] }

/-- A Tool B oracle on which every remote call succeeds. -/
def respBOk : ClientB :=
  { sessionStart := fun _ _ _ _ _ _ => [107],
    startWidgetSession := fun _ => [119],
    appTokenStartSession := fun _ _ => [112],
    appTokenGet := fun _ => .ok tokenFetched0,
    appTokenAdd := fun t => .ok { t with id := "newTok", token := [1, 2, 3] },
    appTokenUpdate := fun _ t => .ok t,
    appTokenList := [] }

/-- A Tool B oracle whose add call raises a `KalturaException`. -/
def respBAddFails : ClientB := { respBOk with appTokenAdd := fun _ => .error "SERVICE_FORBIDDEN" }

/-- A Tool B oracle whose app-token session request returns no session
string. -/
def respBEmptyPriv : ClientB := { respBOk with appTokenStartSession := fun _ _ => [] }

/-- Tool A arguments: `--update tok1 --start_session`. -/
def argsUpd : ArgsA := { update := some "tok1", start_session := true }

/-- Tool A arguments: `--start_session` alone (create path). -/
def argsCreateStart : ArgsA := { start_session := true }

/-- Tool A arguments: `--list` alone. -/
def argsAList : ArgsA := { list := true }

/-- Tool B arguments: `--list` alone. -/
def argsBList : ArgsB := { list := true }

/-- Tool B arguments: `--update x` without `--actions`. -/
def argsB7 : ArgsB := { update := some "x" }

/-- Tool B arguments: `--actions media.*` (create path). -/
def argsBCreate : ArgsB := { actions := some "media.*" }

/-! ### SHA-256 digest bounds and the existence of collisions -/

lemma processBlock_bounded (st : Hash8) (b : List Nat) : (processBlock st b).Bounded := by
  simp only [Hash8.Bounded, processBlock, w32]
  omega

lemma initH_bounded : initH.Bounded := by
  simp only [Hash8.Bounded, initH]
  omega

lemma foldl_processBlock_bounded (bs : List (List Nat)) (st : Hash8) (hb : st.Bounded) :
    (bs.foldl processBlock st).Bounded := by
  induction bs generalizing st with
  | nil => exact hb
  | cons b bs ih =>
    have h := ih (processBlock st b) (processBlock_bounded st b)
    simpa only [List.foldl_cons] using h

lemma sha256Words_bounded (msg : Bytes) : ∀ w ∈ sha256Words msg, w < 4294967296 := by
  intro w hw
  have hB := foldl_processBlock_bounded ((chunks64 (padMessage msg)).map wordsOfBytes)
    initH initH_bounded
  simp only [sha256Words, List.mem_cons, List.not_mem_nil, or_false] at hw
  rcases hw with rfl | rfl | rfl | rfl | rfl | rfl | rfl | rfl
  exacts [hB.1, hB.2.1, hB.2.2.1, hB.2.2.2.1, hB.2.2.2.2.1, hB.2.2.2.2.2.1,
    hB.2.2.2.2.2.2.1, hB.2.2.2.2.2.2.2]

lemma sha256Words_length (msg : Bytes) : (sha256Words msg).length = 8 := rfl

lemma encodeWords_lt (ws : List Nat) (h : ∀ w ∈ ws, w < 4294967296) :
    encodeWords ws < 4294967296 ^ ws.length := by
  induction ws with
  | nil => simp [encodeWords]
  | cons w ws ih =>
    have h1 := ih (fun x hx => h x (List.mem_cons_of_mem _ hx))
    have h2 := h w (List.mem_cons_self _ _)
    simp only [encodeWords, List.length_cons, pow_succ]
    calc encodeWords ws * 4294967296 + w < (encodeWords ws + 1) * 4294967296 := by omega
      _ ≤ 4294967296 ^ ws.length * 4294967296 := Nat.mul_le_mul h1 (le_refl _)

lemma encodeWords_inj : ∀ ws vs : List Nat, ws.length = vs.length →
    (∀ w ∈ ws, w < 4294967296) → (∀ w ∈ vs, w < 4294967296) →
    encodeWords ws = encodeWords vs → ws = vs := by
  intro ws
  induction ws with
  | nil =>
    intro vs hlen _ _ _
    cases vs with
    | nil => rfl
    | cons v vs => simp at hlen
  | cons w ws ih =>
    intro vs hlen h1 h2 he
    cases vs with
    | nil => simp at hlen
    | cons v vs =>
      simp only [encodeWords] at he
      have hw := h1 w (List.mem_cons_self _ _)
      have hv := h2 v (List.mem_cons_self _ _)
      have hww : w = v := by omega
      have hee : encodeWords ws = encodeWords vs := by omega
      subst hww
      rw [ih vs (by simpa using hlen) (fun x hx => h1 x (List.mem_cons_of_mem _ hx))
        (fun x hx => h2 x (List.mem_cons_of_mem _ hx)) hee]

lemma toBytesFn_inj : Function.Injective toBytesFn := by
  intro x y hxy
  have h := List.ofFn_injective hxy
  funext i
  exact Fin.val_injective (congrFun h i)

lemma digestNum_lt (f : Fin 33 → Fin 256) : digestNum f < 4294967296 ^ 8 := by
  have h := encodeWords_lt (sha256Words (toBytesFn f)) (sha256Words_bounded _)
  rw [sha256Words_length] at h
  unfold digestNum
  exact h

/-- By counting, SHA-256 is not injective: there are `2^264` messages of 33
bytes and only `2^256` digests. -/
lemma sha256_collision : ∃ x y : Bytes, x ≠ y ∧ sha256hexdigest x = sha256hexdigest y := by
  obtain ⟨a, b, hne, heq⟩ := Fintype.exists_ne_map_eq_of_card_lt
    (fun f : Fin 33 → Fin 256 => (⟨digestNum f, digestNum_lt f⟩ : Fin (4294967296 ^ 8)))
    (by simp only [Fintype.card_fun, Fintype.card_fin]; norm_num)
  have h1 : digestNum a = digestNum b := by
    have h := congrArg Fin.val heq
    simpa using h
  unfold digestNum at h1
  have h2 : sha256Words (toBytesFn a) = sha256Words (toBytesFn b) :=
    encodeWords_inj _ _ (by rw [sha256Words_length, sha256Words_length])
      (sha256Words_bounded _) (sha256Words_bounded _) h1
  refine ⟨toBytesFn a, toBytesFn b, fun hc => hne (toBytesFn_inj hc), ?_⟩
  unfold sha256hexdigest
  rw [h2]

/-! ### Claim theorems -/

/-- Claim C1 (code bug exhibited): the claim says omitted options contribute
nothing and that the encoded privilege string is empty when no option is
supplied, but at the argparse defaults (no option supplied at all)
`build_privileges` yields the four `store_true` flags anyway — their defaults
are `False`, not `None`, so the `is not None` filter keeps them — producing
`"list:*,enableentitlement:False,disableentitlement:False,enablecategorymoderation:False"`.
The `str`/`int`-typed options do behave as claimed (third conjunct). -/
theorem C1_build_privileges_defaults :
    build_privileges argsADefault =
      "list:*,enableentitlement:False,disableentitlement:False,enablecategorymoderation:False" ∧
    build_privileges argsADefault ≠ "" ∧
    build_privileges { argsADefault with edit := some "123" } =
      "edit:123,list:*,enableentitlement:False,disableentitlement:False,enablecategorymoderation:False" := by
  refine ⟨by decide, by decide, by decide⟩

/-- Claim C10: Tool A's update submits the fetched token with only
`sessionPrivileges` (when the built privilege string is non-empty) and
`description` (when one was supplied) overwritten; every other field, and each
of the two fields when its new value is empty or absent, is submitted
unchanged, and the update call receives exactly that object. -/
theorem C10_update_frame (f : AppToken) (p : String) (d : Option String)
    (resp : ClientA) (i : String) :
    (updatedToken f p d).id = f.id ∧
    (updatedToken f p d).token = f.token ∧
    (updatedToken f p d).partnerId = f.partnerId ∧
    (updatedToken f p d).status = f.status ∧
    (updatedToken f p d).expiry = f.expiry ∧
    (updatedToken f p d).sessionType = f.sessionType ∧
    (updatedToken f p d).sessionUserId = f.sessionUserId ∧
    (updatedToken f p d).sessionDuration = f.sessionDuration ∧
    (updatedToken f p d).hashType = f.hashType ∧
    (updatedToken f p d).sessionPrivileges =
      (if p = "" then f.sessionPrivileges else PrivVal.str p) ∧
    (updatedToken f p d).description = (if optTruthy d then d else f.description) ∧
    (update_app_token resp i p d).1 =
      (resp.appTokenGet i).elim [CallEv.appTokenGet i]
        (fun f0 => [CallEv.appTokenGet i, CallEv.appTokenUpdate i (updatedToken f0 p d)]) := by
  by_cases hp : p = "" <;> by_cases hd : optTruthy d = true <;>
    cases hg : resp.appTokenGet i <;>
      simp [updatedToken, update_app_token, hp, hd, hg]

/-- Claim C4 (code bug exhibited): with `--update tok1 --start_session` and a
fully successful oracle, the trace of `process_app_token_arguments` ends after
the update call — no handshake call is ever issued, because the update result
is discarded and the remembered token id/value stay `None`.  The claim's other
half does hold: after a failed create the handshake is skipped too (last
conjunct). -/
theorem C4_update_skips_session_start :
    argsUpd.start_session = true ∧
    process_app_token_arguments respAOk argsUpd cfgA0 =
      [CallEv.appTokenGet "tok1",
       CallEv.appTokenUpdate "tok1"
         (updatedToken tokenFetched0 (build_privileges argsUpd) none)] ∧
    (process_app_token_arguments respAOk argsUpd cfgA0).all (fun e => !e.isHandshake) = true ∧
    (process_app_token_arguments respAAddFails argsCreateStart cfgA0).all
      (fun e => !e.isHandshake) = true := by
  refine ⟨rfl, by decide, by decide, by decide⟩

/-- Claim C5 (code bug exhibited): on Tool B's create path the submitted
token's `sessionPrivileges` is the raw Python list produced by
`build_uri_privilege` — neither joined with `|` nor given the `urirestrict:`
prefix (that happens only in append mode).  The per-action mapping itself is
as claimed (second and third conjuncts). -/
theorem C5_create_submits_raw_list :
    (toolB_main (ConfigFile.valid cfgB0) respBAddFails argsBCreate).calls =
      [CallEv.configLoad,
       CallEv.sessionStartB (ConfigVal.str "secret") (ConfigVal.str "admin") sessionTypeADMIN
         (ConfigVal.num 12345) (ConfigVal.num 86400) "",
       CallEv.setKs [107],
       CallEv.appTokenAdd { emptyAppToken with
         sessionType := sessionTypeUSER,
         sessionPrivileges := PrivVal.strList ["/api_v3/service/media/action/*"],
         hashType := "SHA256" }] ∧
    build_uri_privilege ["media.*"] = ["/api_v3/service/media/action/*"] ∧
    build_uri_privilege ["baseentry.list"] = ["/api_v3/service/baseentry/action/list/"] ∧
    (∀ s : String, PrivVal.strList ["/api_v3/service/media/action/*"] ≠ PrivVal.str s) := by
  refine ⟨by decide, by decide, by decide, fun s h => PrivVal.noConfusion h⟩

/-- Claim C7: on a Tool B create/update invocation (update id given or list
flag unset) lacking `--actions`, the script reports the user error and returns
before opening the configuration file and before any remote call. -/
theorem C7_missing_actions_early_return (file : ConfigFile) (resp : ClientB) (args : ArgsB)
    (h : ((optTruthy args.update || !args.list) && !(optTruthy args.actions)) = true) :
    toolB_main file resp args =
      ⟨[], ["The --actions argument is mandatory when adding or updating an App Token."],
       BOutcome.earlyReturn⟩ := by
  simp [toolB_main, h]

/-- Witness for C7: `--update x` with no `--actions`, against a missing
configuration file — the run returns the user error without even touching the
file. -/
theorem C7_witness :
    ((optTruthy argsB7.update || !argsB7.list) && !(optTruthy argsB7.actions)) = true ∧
    toolB_main ConfigFile.missing respBOk argsB7 =
      ⟨[], ["The --actions argument is mandatory when adding or updating an App Token."],
       BOutcome.earlyReturn⟩ :=
  ⟨by decide, C7_missing_actions_early_return ConfigFile.missing respBOk argsB7 (by decide)⟩

/-- Claim C3 counterexample: the claim says the handshake fails when the
privileged session string is absent, but when the app-token session request
returns no session string, Tool B's handshake does not fail: it returns the
empty session as a success value and reports nothing. -/
theorem C3_counterexample :
    (toolB_start_session respBEmptyPriv (ConfigVal.num 12345) "tid" [5]).2.2 = some [] ∧
    (toolB_start_session respBEmptyPriv (ConfigVal.num 12345) "tid" [5]).2.1 = [] := by
  exact ⟨rfl, rfl⟩

/-- Claim C3 (amended): both tools first request the widget session keyed by
the literal underscore concatenated with the partner id; Tool A raises when
either the unprivileged or the privileged session string is absent; Tool B
prints a message and returns a null session (raising nothing) when the
unprivileged session string is absent, and performs no check at all on the
privileged session string, returning whatever the server sent. -/
theorem C3_handshake (resp : ClientA) (respB : ClientB) (p : Nat) (tid tidB : String)
    (tv tvB : Bytes) :
    ((start_app_token_session resp (some (ConfigVal.num p)) tid tv).1.head? =
      some (CallEv.startWidgetSession ("_" ++ toString p))) ∧
    ((toolB_start_session respB (ConfigVal.num p) tidB tvB).1.head? =
      some (CallEv.startWidgetSession ("_" ++ toString p))) ∧
    (resp.startWidgetSession ("_" ++ toString p) = [] →
      (start_app_token_session resp (some (ConfigVal.num p)) tid tv).2 =
        .error .unprivSessionFailed) ∧
    (∀ uks, resp.startWidgetSession ("_" ++ toString p) = uks → uks ≠ [] →
      resp.appTokenStartSession tid (appTokenHash uks tv) "" sessionTypeUSER
          (some (ConfigVal.num p)) = [] →
      (start_app_token_session resp (some (ConfigVal.num p)) tid tv).2 =
        .error .privSessionFailed) ∧
    (respB.startWidgetSession ("_" ++ toString p) = [] →
      (toolB_start_session respB (ConfigVal.num p) tidB tvB).2 =
        (["Failed to get an unprivileged ks."], none)) ∧
    (∀ uks, respB.startWidgetSession ("_" ++ toString p) = uks → uks ≠ [] →
      (toolB_start_session respB (ConfigVal.num p) tidB tvB).2.2 =
        some (respB.appTokenStartSession tidB (appTokenHash uks tvB))) := by
  refine ⟨?_, ?_, ?_, ?_, ?_, ?_⟩
  · by_cases h : resp.startWidgetSession ("_" ++ toString p) = []
    · simp [start_app_token_session, pyShowOptVal, h]
    · simp [start_app_token_session, pyShowOptVal, h]
      split <;> simp
  · by_cases h : respB.startWidgetSession ("_" ++ toString p) = [] <;>
      simp [toolB_start_session, pyShowVal, h]
  · intro h; simp [start_app_token_session, pyShowOptVal, h]
  · intro uks huks hne hpks
    simp [start_app_token_session, pyShowOptVal, huks, hne, hpks]
  · intro h; simp [toolB_start_session, pyShowVal, h]
  · intro uks huks hne
    simp [toolB_start_session, pyShowVal, huks, hne]

/-- Witness for C3: concrete oracles exercising the amended behaviours — Tool
A raising on a missing unprivileged session, and Tool B returning the
unchecked (empty) privileged session. -/
theorem C3_witness :
    (start_app_token_session respAEmptyWidget (some (ConfigVal.num 12345)) "t" [1]).2 =
      .error .unprivSessionFailed ∧
    (toolB_start_session respBEmptyPriv (ConfigVal.num 12345) "t" [1]).2.2 =
      some (respBEmptyPriv.appTokenStartSession "t" (appTokenHash [119] [1])) :=
  ⟨(C3_handshake respAEmptyWidget respBEmptyPriv 12345 "t" "t" [1] [1]).2.2.1 rfl,
   (C3_handshake respAEmptyWidget respBEmptyPriv 12345 "t" "t" [1] [1]).2.2.2.2.2 [119] rfl
     (by decide)⟩

/-- Claim C8: a list-only invocation (list flag set, no delete identifier for
Tool A, no update identifier for Tool B) never issues an add, update or delete
call, whatever the configuration and server responses; on the concrete
all-success oracles the trace is exactly configuration load, admin session
start, and the one list call. -/
theorem C8_list_only_no_mutation (file : ConfigFile) (resp : ClientA) (a : ArgsA)
    (fileB : ConfigFile) (respB : ClientB) (b : ArgsB)
    (ha1 : optTruthy a.delete = false) (ha2 : a.list = true)
    (_hb1 : optTruthy b.update = false) (hb2 : b.list = true) :
    ((run_application file resp a).1.all (fun e => !e.isMutation) = true) ∧
    ((toolB_main fileB respB b).calls.all (fun e => !e.isMutation) = true) ∧
    ((run_application (ConfigFile.valid cfgA0) respAOk argsAList).1 =
      [CallEv.configLoad,
       CallEv.sessionStart (some (ConfigVal.str "secret")) (ConfigVal.str "")
         sessionTypeADMIN (some (ConfigVal.num 12345)) (ConfigVal.num 86400)
         (ConfigVal.str ""),
       CallEv.setKs [107], CallEv.appTokenList]) ∧
    ((toolB_main (ConfigFile.valid cfgB0) respBOk argsBList).calls =
      [CallEv.configLoad,
       CallEv.sessionStartB (ConfigVal.str "secret") (ConfigVal.str "admin")
         sessionTypeADMIN (ConfigVal.num 12345) (ConfigVal.num 86400) "",
       CallEv.setKs [107], CallEv.appTokenList]) := by
  refine ⟨?_, ?_, by decide, by decide⟩
  · cases file with
    | missing => simp [run_application, load_configuration, CallEv.isMutation]
    | invalidJson => simp [run_application, load_configuration, CallEv.isMutation]
    | valid cfg =>
      simp only [run_application, load_configuration]
      cases h1 : List.lookup "PARTNER_ID" cfg with
      | none => simp [initialize_client, h1, CallEv.isMutation]
      | some pv =>
        cases h2 : List.lookup "KALTURA_SERVICE_URL" cfg with
        | none => simp [initialize_client, h1, h2, CallEv.isMutation]
        | some uv =>
          simp only [initialize_client, h1, h2]
          cases h3 : resp.sessionStart (List.lookup "ADMIN_SECRET" cfg)
              ((List.lookup "USER_ID" cfg).getD (ConfigVal.str "")) sessionTypeADMIN
              (List.lookup "PARTNER_ID" cfg) ((List.lookup "EXPIRY" cfg).getD (ConfigVal.num 86400))
              ((List.lookup "DEFAULT_ADMIN_PRIVILEGES" cfg).getD (ConfigVal.str "")) with
          | none => simp [start_admin_session, h3, CallEv.isMutation]
          | some ks =>
            simp [start_admin_session, h3, ha1, ha2, list_app_tokens, CallEv.isMutation]
  · cases hguard : (optTruthy b.update || !b.list) && !(optTruthy b.actions) with
    | true => simp [toolB_main, hguard, CallEv.isMutation]
    | false =>
      cases fileB with
      | missing => simp [toolB_main, hguard, CallEv.isMutation]
      | invalidJson => simp [toolB_main, hguard, CallEv.isMutation]
      | valid cfg =>
        simp only [toolB_main, hguard]
        cases h1 : List.lookup "PARTNER_ID" cfg with
        | none => simp [h1, CallEv.isMutation]
        | some pv =>
          cases h2 : List.lookup "ADMIN_SECRET" cfg with
          | none => simp [h1, h2, CallEv.isMutation]
          | some sv =>
            cases h3 : List.lookup "SCRIPT_USER_ID" cfg with
            | none => simp [h1, h2, h3, CallEv.isMutation]
            | some uv =>
              cases h4 : List.lookup "ADMIN_SESSION_EXPIRY" cfg with
              | none => simp [h1, h2, h3, h4, CallEv.isMutation]
              | some ev =>
                cases h5 : List.lookup "KALTURA_SERVICE_URL" cfg with
                | none => simp [h1, h2, h3, h4, h5, CallEv.isMutation]
                | some kv => simp [h1, h2, h3, h4, h5, hb2, CallEv.isMutation]

/-- Witness for C8: the list-only argument fixtures satisfy the hypotheses,
and both tools then perform exactly the configuration load, admin session
start and list call. -/
theorem C8_witness :
    optTruthy argsAList.delete = false ∧ argsAList.list = true ∧
    optTruthy argsBList.update = false ∧ argsBList.list = true ∧
    ((run_application (ConfigFile.valid cfgA0) respAOk argsAList).1.all
      (fun e => !e.isMutation) = true) :=
  ⟨rfl, rfl, rfl, rfl,
   (C8_list_only_no_mutation (ConfigFile.valid cfgA0) respAOk argsAList
     (ConfigFile.valid cfgB0) respBOk argsBList rfl rfl rfl rfl).1⟩

/-- Claim C9 counterexample: the claim says missing required keys surface as a
key-lookup failure at first use, but with `ADMIN_SECRET` absent Tool A raises
no key-lookup failure at all — the secret is read with a defaulting `.get`
lookup, passed as `None` to the remote session start, and the run completes
normally. -/
theorem C9_counterexample :
    List.lookup "ADMIN_SECRET" cfgNoSecret = none ∧
    run_application (ConfigFile.valid cfgNoSecret) respAOk argsAList =
      ([CallEv.configLoad,
        CallEv.sessionStart none (ConfigVal.str "") sessionTypeADMIN
          (some (ConfigVal.num 12345)) (ConfigVal.num 86400) (ConfigVal.str ""),
        CallEv.setKs [107], CallEv.appTokenList], .ok ()) ∧
    (∀ k, (run_application (ConfigFile.valid cfgNoSecret) respAOk argsAList).2 ≠
      .error (.keyError k)) := by
  refine ⟨rfl, rfl, fun k h => Except.noConfusion h⟩

/-- Claim C9 (amended): a missing or invalid `config.json` raises the
configuration error before any network call (the trace holds only the load
attempt); a parsed configuration is returned without any key validation;
a missing `PARTNER_ID` surfaces as a key-lookup failure when the client is
initialized, still before any network call; but a missing `ADMIN_SECRET`
raises no key-lookup failure — it is read with a defaulting lookup and the
admin session start is invoked with a null secret. -/
theorem C9_config_errors (resp : ClientA) (args : ArgsA) (cfg : ConfigDict)
    (pv uv : ConfigVal) :
    load_configuration ConfigFile.missing =
      .error (.configError "Configuration file 'config.json' not found.") ∧
    load_configuration ConfigFile.invalidJson =
      .error (.configError "Configuration file 'config.json' contains invalid JSON.") ∧
    (∀ c : ConfigDict, load_configuration (ConfigFile.valid c) = .ok c) ∧
    run_application ConfigFile.missing resp args =
      ([CallEv.configLoad],
       .error (.configError "Configuration file 'config.json' not found.")) ∧
    run_application ConfigFile.invalidJson resp args =
      ([CallEv.configLoad],
       .error (.configError "Configuration file 'config.json' contains invalid JSON.")) ∧
    (List.lookup "PARTNER_ID" cfg = none →
      run_application (ConfigFile.valid cfg) resp args =
        ([CallEv.configLoad], .error (.keyError "PARTNER_ID"))) ∧
    (List.lookup "PARTNER_ID" cfg = some pv →
      List.lookup "KALTURA_SERVICE_URL" cfg = some uv →
      List.lookup "ADMIN_SECRET" cfg = none →
      (run_application (ConfigFile.valid cfg) resp args).1.get? 1 =
        some (CallEv.sessionStart none ((List.lookup "USER_ID" cfg).getD (ConfigVal.str ""))
          sessionTypeADMIN (some pv) ((List.lookup "EXPIRY" cfg).getD (ConfigVal.num 86400))
          ((List.lookup "DEFAULT_ADMIN_PRIVILEGES" cfg).getD (ConfigVal.str "")))) := by
  refine ⟨rfl, rfl, fun c => rfl, rfl, rfl, ?_, ?_⟩
  · intro h1; simp [run_application, load_configuration, initialize_client, h1]
  · intro h1 h2 h3
    simp only [run_application, load_configuration, initialize_client, start_admin_session,
      h1, h2, h3]
    cases h4 : resp.sessionStart none ((List.lookup "USER_ID" cfg).getD (ConfigVal.str ""))
        sessionTypeADMIN (some pv) ((List.lookup "EXPIRY" cfg).getD (ConfigVal.num 86400))
        ((List.lookup "DEFAULT_ADMIN_PRIVILEGES" cfg).getD (ConfigVal.str "")) with
    | none => simp [h4]
    | some ks =>
      simp only [h4]
      split
      · simp
      · split <;> simp

/-- Witness for C9: the concrete configuration lacking `ADMIN_SECRET`
satisfies the hypotheses, and the admin session start is the second call, with
a null secret. -/
theorem C9_witness :
    List.lookup "PARTNER_ID" cfgNoSecret = some (ConfigVal.num 12345) ∧
    List.lookup "ADMIN_SECRET" cfgNoSecret = none ∧
    (run_application (ConfigFile.valid cfgNoSecret) respAOk argsAList).1.get? 1 =
      some (CallEv.sessionStart none (ConfigVal.str "") sessionTypeADMIN
        (some (ConfigVal.num 12345)) (ConfigVal.num 86400) (ConfigVal.str "")) := by
  refine ⟨rfl, rfl, ?_⟩
  have h := (C9_config_errors respAOk argsAList cfgNoSecret (ConfigVal.num 12345)
    (ConfigVal.str "https://example.com")).2.2.2.2.2.2 rfl rfl rfl
  exact h

/-- Claim C6: in append mode the existing privilege string split on `|` and
the newly built URIs are merged with duplicates removed (order unspecified —
the merged membership is exactly the union) and rejoined with `|` under a
`urirestrict:` prefix, and the update call receives the fetched token carrying
exactly that string; for the concrete existing privileges `urirestrict:/a|/b`
and the new action `media.*`, the result starts with `urirestrict:` and
contains `/a`, `/b` and the new URI. -/
theorem C6_append_merge (resp : ClientB) (cfg : ConfigDict)
    (pv sv uv ev kv : ConfigVal)
    (uid E A : String) (d : Option String) (fetched : AppToken)
    (hc1 : List.lookup "PARTNER_ID" cfg = some pv)
    (hc2 : List.lookup "ADMIN_SECRET" cfg = some sv)
    (hc3 : List.lookup "SCRIPT_USER_ID" cfg = some uv)
    (hc4 : List.lookup "ADMIN_SESSION_EXPIRY" cfg = some ev)
    (hc5 : List.lookup "KALTURA_SERVICE_URL" cfg = some kv)
    (hu : uid ≠ "") (hA : A ≠ "")
    (hget : resp.appTokenGet uid = .ok fetched)
    (hpriv : fetched.sessionPrivileges = PrivVal.str E) :
    (CallEv.appTokenUpdate uid
        (let t1 := { fetched with
          sessionPrivileges := PrivVal.str (appendModePriv E (pySplit (pyLower A) ',')) }
         if optTruthy d then { t1 with description := d } else t1) ∈
      (toolB_main (ConfigFile.valid cfg) resp ⟨false, some A, some uid, true, d, false⟩).calls) ∧
    (∀ u, u ∈ (pySplit E '|' ++ build_uri_privilege (pySplit (pyLower A) ',')).dedup ↔
      (u ∈ pySplit E '|' ∨ u ∈ build_uri_privilege (pySplit (pyLower A) ','))) ∧
    (appendModePriv E (pySplit (pyLower A) ',') =
      "urirestrict:" ++ String.intercalate "|"
        ((pySplit E '|' ++ build_uri_privilege (pySplit (pyLower A) ',')).dedup)) ∧
    containsSub "/a".data (appendModePriv "urirestrict:/a|/b" ["media.*"]).data = true ∧
    containsSub "/b".data (appendModePriv "urirestrict:/a|/b" ["media.*"]).data = true ∧
    containsSub "/api_v3/service/media/action/*".data
      (appendModePriv "urirestrict:/a|/b" ["media.*"]).data = true ∧
    "urirestrict:".data.isPrefixOf (appendModePriv "urirestrict:/a|/b" ["media.*"]).data =
      true := by
  have hU : optTruthy (some uid) = true := by simp [optTruthy, hu]
  have hA2 : optTruthy (some A) = true := by simp [optTruthy, hA]
  refine ⟨?_, ?_, rfl, by decide, by decide, by decide, by decide⟩
  · simp only [toolB_main, hU, hA2, hc1, hc2, hc3, hc4, hc5, Option.getD_some]
    simp only [Bool.true_or, Bool.not_true, Bool.and_false, Bool.false_eq_true, if_false]
    simp only [toolB_updateBranch, hget, hpriv]
    simp only [toolB_submitUpdate]
    split
    · split <;> simp [toolB_finishToken]
    · simp_all
  · intro u; simp [List.mem_dedup, List.mem_append]

/-- Witness for C6: the concrete fixtures satisfy the hypotheses, and the
update call carries the merged `urirestrict:` string. -/
theorem C6_witness :
    respBOk.appTokenGet "tok1" = .ok tokenFetched0 ∧
    tokenFetched0.sessionPrivileges = PrivVal.str "edit:*" ∧
    (CallEv.appTokenUpdate "tok1"
        { tokenFetched0 with
          sessionPrivileges :=
            PrivVal.str (appendModePriv "edit:*" (pySplit (pyLower "media.*") ',')) } ∈
      (toolB_main (ConfigFile.valid cfgB0) respBOk
        ⟨false, some "media.*", some "tok1", true, none, false⟩).calls) :=
  ⟨rfl, rfl, by
    have h := (C6_append_merge respBOk cfgB0 (ConfigVal.num 12345) (ConfigVal.str "secret")
      (ConfigVal.str "admin") (ConfigVal.num 86400) (ConfigVal.str "https://example.com")
      "tok1" "edit:*" "media.*" none tokenFetched0 rfl rfl rfl rfl rfl (by decide) (by decide)
      rfl rfl).1
    simpa using h⟩

/-- Claim C2 counterexample: the claim's sensitivity clause — changing either
input changes the digest — is false: SHA-256 maps more inputs than there are
digests, so two different session strings collide on the same digest for the
same token value (the collision is non-constructive; no concrete one is
known, but its existence already refutes the universal claim). -/
theorem C2_counterexample :
    ¬ (∀ s sx v : Bytes, s ≠ sx → appTokenHash s v ≠ appTokenHash sx v) := by
  intro hclaim
  obtain ⟨x, y, hne, heq⟩ := sha256_collision
  exact hclaim x y [] hne (by simpa [appTokenHash] using heq)

/-- Claim C2 (amended): the hash both tools compute — and pass as the second
argument of the app-token session request — equals the SHA-256 lowercase hex
digest of the concatenation of the unprivileged session string and the token
value; equal input pairs give equal digests; and changing either input changes
the hash preimage (the concatenated byte string) — though not necessarily the
digest itself, SHA-256 being non-injective. -/
theorem C2_hash (resp : ClientA) (respB : ClientB) (pid : Option ConfigVal)
    (pidB : ConfigVal) (tid tidB : String) (tv tvB : Bytes) (s sx v vx : Bytes) :
    appTokenHash s v = sha256hexdigest (s ++ v) ∧
    (s = sx → v = vx → appTokenHash s v = appTokenHash sx vx) ∧
    (s ≠ sx → s ++ v ≠ sx ++ v) ∧
    (v ≠ vx → s ++ v ≠ s ++ vx) ∧
    (∀ uks, resp.startWidgetSession ("_" ++ pyShowOptVal pid) = uks → uks ≠ [] →
      CallEv.appTokenStartSessionFull tid (appTokenHash uks tv) "" sessionTypeUSER pid ∈
        (start_app_token_session resp pid tid tv).1) ∧
    (∀ uks, respB.startWidgetSession ("_" ++ pyShowVal pidB) = uks → uks ≠ [] →
      CallEv.appTokenStartSessionShort tidB (appTokenHash uks tvB) ∈
        (toolB_start_session respB pidB tidB tvB).1) := by
  refine ⟨rfl, ?_, ?_, ?_, ?_, ?_⟩
  · intro h1 h2; rw [h1, h2]
  · intro hne he; exact hne (List.append_cancel_right he)
  · intro hne he; exact hne (List.append_cancel_left he)
  · intro uks huks hne
    simp only [start_app_token_session, huks, hne, if_false]
    split <;> simp
  · intro uks huks hne
    simp [toolB_start_session, huks, hne]

/-- Witness for C2: on the concrete all-success oracles, both tools pass
exactly the modelled hash to the app-token session request, and the hash
equals the digest of the concatenation. -/
theorem C2_witness :
    respAOk.startWidgetSession ("_" ++ pyShowOptVal (some (ConfigVal.num 12345))) = [119] ∧
    ([119] : Bytes) ≠ [] ∧
    (CallEv.appTokenStartSessionFull "t" (appTokenHash [119] [1]) "" sessionTypeUSER
        (some (ConfigVal.num 12345)) ∈
      (start_app_token_session respAOk (some (ConfigVal.num 12345)) "t" [1]).1) ∧
    (CallEv.appTokenStartSessionShort "t" (appTokenHash [119] [2]) ∈
      (toolB_start_session respBOk (ConfigVal.num 12345) "t" [2]).1) ∧
    appTokenHash [0] [1] = sha256hexdigest ([0] ++ [1]) := by
  have h := C2_hash respAOk respBOk (some (ConfigVal.num 12345)) (ConfigVal.num 12345)
    "t" "t" [1] [2] [0] [0] [1] [1]
  exact ⟨rfl, by decide, h.2.2.2.2.1 [119] rfl (by decide),
    h.2.2.2.2.2 [119] rfl (by decide), h.1⟩

end KalAppTokens
